import Mathlib

/-
Verification of the uvicorn-gunicorn-readyapi image repository.

Part 1 embeds src/docker-images/app/main.py: the three GET handlers,
the two global exception handlers, and the dispatch of a handler
outcome to an HTTP response.

Part 2 embeds src/tests/test_02_security/test_security.py: each smoke
test as a function from the probe observations (exec output, health
attributes, HTTP status, labels) to a pass/fail result together with
the trace of container lifecycle actions it performs.
-/

namespace ReadyApp

/-- JSON values appearing in the response bodies of main.py: the bodies
only ever hold strings and the integer status code. -/
inductive JVal where
  | str (s : String)
  | num (n : Nat)
deriving DecidableEq, Repr

/-- A JSON object, as the ordered key/value list main.py writes literally. -/
abbrev JObj := List (String × JVal)

/-- Embeds readyapi.responses.JSONResponse as used in main.py: a status
code plus a JSON object body. -/
structure JSONResponse where
  status_code : Nat
  content : JObj
deriving DecidableEq, Repr

/-- Exceptions reaching the application boundary: readyapi.HTTPException
with its status code and detail, or any other exception (carried here as
its message string). -/
inductive Exc where
  | http (code : Nat) (detail : String)
  | other (msg : String)
deriving DecidableEq, Repr

/-- Embeds main.py line 17: version = f-string of sys.version_info major
and minor, joined by a dot. -/
def version (major minor : Nat) : String :=
  toString major ++ "." ++ toString minor

/-- Embeds http_exception_handler (main.py lines 42-49): respond at the
exception status code with body error = detail, status_code = code. -/
def http_exception_handler (code : Nat) (detail : String) : JSONResponse :=
  ⟨code, [("error", .str detail), ("status_code", .num code)]⟩

/-- Embeds general_exception_handler (main.py lines 52-59): any other
exception is answered with a fixed 500 response; the exception message is
only logged, never echoed. -/
def general_exception_handler (_msg : String) : JSONResponse :=
  ⟨500, [("error", .str "Internal server error"), ("status_code", .num 500)]⟩

/-- The message string built in read_root, interpolating the version. -/
def read_root_message (v : String) : String :=
  "Hello world! From ReadyAPI running on Uvicorn with Gunicorn. Using Python " ++ v

/-- The try block of read_root (main.py lines 65-72): build the message
and return the dict. Its only effect besides the returned dict is a log
line, so as a value it always succeeds. -/
def read_root_try (v : String) : Except String JObj :=
  .ok [("message", .str (read_root_message v)),
       ("python_version", .str v),
       ("status", .str "healthy")]

/-- Embeds read_root (main.py lines 62-75): run the try block; on any
exception there, raise HTTPException 500 "Internal server error". -/
def read_root (v : String) : Except Exc JObj :=
  match read_root_try v with
  | .ok d => .ok d
  | .error _ => .error (.http 500 "Internal server error")

/-- Embeds health_check (main.py lines 78-81). -/
def health_check : JObj :=
  [("status", .str "healthy"), ("service", .str "uvicorn-gunicorn-readyapi")]

/-- Embeds get_info (main.py lines 84-93). -/
def get_info (v : String) : JObj :=
  [("python_version", .str v),
   ("framework", .str "ReadyAPI"),
   ("server", .str "Uvicorn with Gunicorn"),
   ("docs_url", .str "/docs"),
   ("redoc_url", .str "/redoc")]

/-- The application boundary: a handler outcome becomes an HTTP response.
A returned dict is sent at 200; an HTTPException goes through
http_exception_handler; any other exception goes through
general_exception_handler, per the two app.exception_handler
registrations in main.py. -/
def dispatch (r : Except Exc JObj) : JSONResponse :=
  match r with
  | .ok body => ⟨200, body⟩
  | .error (.http c d) => http_exception_handler c d
  | .error (.other m) => general_exception_handler m

/-- GET routing over the three routes registered in main.py; any other
path has no handler here. -/
def app_get (v : String) (path : String) : Option JSONResponse :=
  if path = "/" then some (dispatch (read_root v))
  else if path = "/health" then some (dispatch (.ok health_check))
  else if path = "/info" then some (dispatch (.ok (get_info v)))
  else none

end ReadyApp

namespace SecurityTests

open ReadyApp

/-- Container lifecycle actions a smoke test performs against the docker
daemon. -/
inductive Action where
  | run
  | stop
  | remove
deriving DecidableEq, Repr

/-- Outcome of a Python test body: normal completion, a failed assert, or
any other raised exception. -/
inductive PyResult (α : Type) where
  | ok (a : α)
  | assertFail (msg : String)
  | exn (msg : String)
deriving DecidableEq, Repr

/-- Shared skeleton of every test in test_security.py: client.containers.run
acquires the container, the probe body runs inside a try block, and the
finally block stops then removes the container. Python finally semantics
run the finalizer on every exit of the body, normal or exceptional, so
the trace carries stop and remove regardless of the body result. -/
def runSmokeTest (body : PyResult Unit) : PyResult Unit × List Action :=
  (body, [Action.run, Action.stop, Action.remove])

/-- Probe body of test_non_root_user (lines 31-44): assert id -u output
is not "0", then assert whoami output is "appuser". -/
def test_non_root_user_body (user_id username : String) : PyResult Unit :=
  if user_id = "0" then .assertFail "Container should not run as root"
  else if username = "appuser" then .ok ()
  else .assertFail "Expected appuser"

/-- test_non_root_user as a whole: probe body inside the shared
acquire/cleanup skeleton. -/
def test_non_root_user (user_id username : String) : PyResult Unit × List Action :=
  runSmokeTest (test_non_root_user_body user_id username)

/-- Probe body of test_health_check (lines 58-69): if the Health attrs
dict is nonempty, its Status (defaulting to "unknown") must be healthy
or starting; then the HTTP status of a GET to the root must be 200. -/
def test_health_check_body (health : List (String × String)) (probeStatus : Nat) :
    PyResult Unit :=
  if health.isEmpty then
    if probeStatus = 200 then .ok () else .assertFail "root probe not 200"
  else if (health.lookup "Status").getD "unknown" = "healthy" ∨
      (health.lookup "Status").getD "unknown" = "starting" then
    if probeStatus = 200 then .ok () else .assertFail "root probe not 200"
  else .assertFail "Unhealthy container status"

/-- test_health_check as a whole. -/
def test_health_check (health : List (String × String)) (probeStatus : Nat) :
    PyResult Unit × List Action :=
  runSmokeTest (test_health_check_body health probeStatus)

/-- Bool test that the first character list starts the second one. -/
def listStartsWith : List Char → List Char → Bool
  | [], _ => true
  | _ :: _, [] => false
  | c :: cs, d :: ds => c = d && listStartsWith cs ds

/-- Contiguous occurrence of the first character list in the second. -/
def listOccursIn (sub : List Char) : List Char → Bool
  | [] => listStartsWith sub []
  | d :: ds => listStartsWith sub (d :: ds) || listOccursIn sub ds

/-- The Python in operator on strings: sub occurs contiguously in s. -/
def pyInStr (sub s : String) : Bool :=
  listOccursIn sub.toList s.toList

/-- Probe body of test_file_permissions (lines 87-97): the ls -la /app
output must not contain the substring "777", and the shell command
test -r /app/main.py or test -r /app/app/main.py must exit 0, which it
does exactly when either file is readable. -/
def test_file_permissions_body (lsOutput : String)
    (mainReadable appMainReadable : Bool) : PyResult Unit :=
  if pyInStr "777" lsOutput then
    .assertFail "App directory should not be world-writable"
  else if mainReadable || appMainReadable then .ok ()
  else .assertFail "Main application file should be readable"

/-- test_file_permissions as a whole. -/
def test_file_permissions (lsOutput : String)
    (mainReadable appMainReadable : Bool) : PyResult Unit × List Action :=
  runSmokeTest (test_file_permissions_body lsOutput mainReadable appMainReadable)

/-- Probe body of test_container_labels (lines 115-124): the three OCI
label keys must be present, and the vendor label value must equal
"KhulnaSoft". Presence is key membership; values are not otherwise
inspected. -/
def test_container_labels_body (labels : List (String × String)) : PyResult Unit :=
  if (labels.lookup "org.opencontainers.image.title").isNone then
    .assertFail "missing title label"
  else if (labels.lookup "org.opencontainers.image.description").isNone then
    .assertFail "missing description label"
  else if (labels.lookup "org.opencontainers.image.vendor").isNone then
    .assertFail "missing vendor label"
  else if (labels.lookup "org.opencontainers.image.vendor").getD "" = "KhulnaSoft" then
    .ok ()
  else .assertFail "vendor label value"

/-- test_container_labels as a whole. -/
def test_container_labels (labels : List (String × String)) : PyResult Unit × List Action :=
  runSmokeTest (test_container_labels_body labels)

end SecurityTests

section Claims

open ReadyApp SecurityTests

/-- C1: for every request during which a handler raises an exception that
is not an HTTPException, the application returns HTTP status 500 with the
exact JSON body error = "Internal server error", status_code = 500, for
every such exception value. -/
theorem C1_unhandled_exception_fixed_500 (msg : String) :
    ReadyApp.dispatch (.error (.other msg)) =
      ⟨500, [("error", .str "Internal server error"), ("status_code", .num 500)]⟩ :=
  rfl

/-- C2: for every HTTPException with status code c and detail d, the
application responds with status exactly c and JSON body error = d,
status_code = c; code and detail are propagated unchanged. -/
theorem C2_http_exception_propagated (c : Nat) (d : String) :
    ReadyApp.dispatch (.error (.http c d)) =
      ⟨c, [("error", .str d), ("status_code", .num c)]⟩ :=
  rfl

/-- C3: every GET request to the root path returns 200 with a JSON object
holding exactly the keys message, python_version and status, where status
is "healthy", python_version is the major.minor version string of the
runtime, and message interpolates that same version string. -/
theorem C3_root_endpoint_response (major minor : Nat) :
    ReadyApp.app_get (version major minor) "/" =
      some ⟨200,
        [("message", .str
            ("Hello world! From ReadyAPI running on Uvicorn with Gunicorn. Using Python "
              ++ version major minor)),
         ("python_version", .str (version major minor)),
         ("status", .str "healthy")]⟩ := by
  rfl

/-- C4: every GET to /health returns 200 with status = "healthy" and
service = "uvicorn-gunicorn-readyapi", and every GET to /info returns 200
with the static descriptive fields python_version, framework, server,
docs_url and redoc_url. -/
theorem C4_health_and_info_responses (major minor : Nat) :
    ReadyApp.app_get (version major minor) "/health" =
      some ⟨200, [("status", .str "healthy"),
                  ("service", .str "uvicorn-gunicorn-readyapi")]⟩ ∧
    ReadyApp.app_get (version major minor) "/info" =
      some ⟨200, [("python_version", .str (version major minor)),
                  ("framework", .str "ReadyAPI"),
                  ("server", .str "Uvicorn with Gunicorn"),
                  ("docs_url", .str "/docs"),
                  ("redoc_url", .str "/redoc")]⟩ := by
  exact ⟨rfl, rfl⟩

end Claims

section MoreClaims

open ReadyApp SecurityTests

/-- C5 counterexample: the label test as coded checks only key presence,
so it passes on labels whose title and description values are the empty
string, refuting the claim that passing requires non-empty values. -/
theorem C5_counterexample_empty_title_passes :
    (SecurityTests.test_container_labels
        [("org.opencontainers.image.title", ""),
         ("org.opencontainers.image.description", ""),
         ("org.opencontainers.image.vendor", "KhulnaSoft")]).1 = PyResult.ok () ∧
    ([("org.opencontainers.image.title", ""),
      ("org.opencontainers.image.description", ""),
      ("org.opencontainers.image.vendor", "KhulnaSoft")]
        : List (String × String)).lookup "org.opencontainers.image.title"
      = some "" :=
  ⟨rfl, rfl⟩

/-- C5 (amended): the label test passes only if the labels carry the keys
org.opencontainers.image.title and org.opencontainers.image.description
(with any value, possibly empty) and the vendor label value equals the
fixed organization string "KhulnaSoft". -/
theorem C5_label_test_pass_conditions (labels : List (String × String))
    (h : (SecurityTests.test_container_labels labels).1 = PyResult.ok ()) :
    (labels.lookup "org.opencontainers.image.title").isSome = true ∧
    (labels.lookup "org.opencontainers.image.description").isSome = true ∧
    labels.lookup "org.opencontainers.image.vendor" = some "KhulnaSoft" := by
  have hb : SecurityTests.test_container_labels_body labels = PyResult.ok () := h
  cases ht : labels.lookup "org.opencontainers.image.title" with
  | none => simp [SecurityTests.test_container_labels_body, ht] at hb
  | some tv =>
  cases hd : labels.lookup "org.opencontainers.image.description" with
  | none => simp [SecurityTests.test_container_labels_body, ht, hd] at hb
  | some dv =>
  cases hv : labels.lookup "org.opencontainers.image.vendor" with
  | none => simp [SecurityTests.test_container_labels_body, ht, hd, hv] at hb
  | some vv =>
  by_cases hkv : vv = "KhulnaSoft"
  · exact ⟨by simp, by simp, by rw [hkv]⟩
  · simp [SecurityTests.test_container_labels_body, ht, hd, hv, hkv] at hb

/-- C5 witness: the amended pass conditions hold at a concrete passing
label set. -/
theorem C5_label_test_pass_conditions_witness :
    (([("org.opencontainers.image.title", "uvicorn-gunicorn-readyapi"),
       ("org.opencontainers.image.description", "ReadyAPI image"),
       ("org.opencontainers.image.vendor", "KhulnaSoft")]
         : List (String × String)).lookup "org.opencontainers.image.title").isSome
      = true ∧
    (([("org.opencontainers.image.title", "uvicorn-gunicorn-readyapi"),
       ("org.opencontainers.image.description", "ReadyAPI image"),
       ("org.opencontainers.image.vendor", "KhulnaSoft")]
         : List (String × String)).lookup "org.opencontainers.image.description").isSome
      = true ∧
    ([("org.opencontainers.image.title", "uvicorn-gunicorn-readyapi"),
      ("org.opencontainers.image.description", "ReadyAPI image"),
      ("org.opencontainers.image.vendor", "KhulnaSoft")]
        : List (String × String)).lookup "org.opencontainers.image.vendor"
      = some "KhulnaSoft" :=
  C5_label_test_pass_conditions
    [("org.opencontainers.image.title", "uvicorn-gunicorn-readyapi"),
     ("org.opencontainers.image.description", "ReadyAPI image"),
     ("org.opencontainers.image.vendor", "KhulnaSoft")] rfl

/-- C6: when the health-check test passes, any reported health status
(the Status attribute when the Health dict is nonempty, "unknown" when
the attribute is missing) is healthy or starting, and the HTTP probe of
the root endpoint returned 200. -/
theorem C6_health_check_pass_conditions (health : List (String × String)) (p : Nat)
    (h : (SecurityTests.test_health_check health p).1 = PyResult.ok ()) :
    (health.isEmpty = false →
      (health.lookup "Status").getD "unknown" = "healthy" ∨
      (health.lookup "Status").getD "unknown" = "starting") ∧
    p = 200 := by
  have hb : SecurityTests.test_health_check_body health p = PyResult.ok () := h
  unfold SecurityTests.test_health_check_body at hb
  by_cases he : health.isEmpty = true
  · rw [if_pos he] at hb
    refine ⟨fun hc => absurd he (by rw [hc]; exact Bool.false_ne_true), ?_⟩
    by_cases hp : p = 200
    · exact hp
    · rw [if_neg hp] at hb; cases hb
  · rw [if_neg he] at hb
    by_cases hs : (health.lookup "Status").getD "unknown" = "healthy" ∨
        (health.lookup "Status").getD "unknown" = "starting"
    · rw [if_pos hs] at hb
      refine ⟨fun _ => hs, ?_⟩
      by_cases hp : p = 200
      · exact hp
      · rw [if_neg hp] at hb; cases hb
    · rw [if_neg hs] at hb; cases hb

/-- C6 witness: the pass conditions hold at a concrete passing run, with
health reported as healthy and the probe answering 200. -/
theorem C6_health_check_pass_conditions_witness :
    (([("Status", "healthy")] : List (String × String)).isEmpty = false →
      ((([("Status", "healthy")] : List (String × String)).lookup "Status").getD "unknown"
          = "healthy" ∨
       (([("Status", "healthy")] : List (String × String)).lookup "Status").getD "unknown"
          = "starting")) ∧
    (200 : Nat) = 200 :=
  C6_health_check_pass_conditions [("Status", "healthy")] 200 rfl

/-- C7: every smoke test acquires its container with run and, on every
exit of the probe phase (normal completion, assertion failure, or any
other exception), performs stop and then remove; shown for the shared
skeleton over an arbitrary body result and for each of the four tests
over arbitrary probe observations. -/
theorem C7_cleanup_on_all_exit_paths (body : PyResult Unit)
    (uid un : String) (health : List (String × String)) (p : Nat)
    (ls : String) (r1 r2 : Bool) (labels : List (String × String)) :
    (SecurityTests.runSmokeTest body).2 = [Action.run, Action.stop, Action.remove] ∧
    (SecurityTests.test_non_root_user uid un).2
      = [Action.run, Action.stop, Action.remove] ∧
    (SecurityTests.test_health_check health p).2
      = [Action.run, Action.stop, Action.remove] ∧
    (SecurityTests.test_file_permissions ls r1 r2).2
      = [Action.run, Action.stop, Action.remove] ∧
    (SecurityTests.test_container_labels labels).2
      = [Action.run, Action.stop, Action.remove] :=
  ⟨rfl, rfl, rfl, rfl, rfl⟩

/-- C8: when the file-permission test passes, the directory listing of
the app directory contains no occurrence of the substring "777", and at
least one of the two candidate main application files is readable. -/
theorem C8_file_permissions_pass_conditions (ls : String) (r1 r2 : Bool)
    (h : (SecurityTests.test_file_permissions ls r1 r2).1 = PyResult.ok ()) :
    SecurityTests.pyInStr "777" ls = false ∧ (r1 || r2) = true := by
  have hb : SecurityTests.test_file_permissions_body ls r1 r2 = PyResult.ok () := h
  unfold SecurityTests.test_file_permissions_body at hb
  by_cases h7 : SecurityTests.pyInStr "777" ls = true
  · rw [if_pos h7] at hb; cases hb
  · rw [if_neg h7] at hb
    refine ⟨Bool.not_eq_true _ ▸ h7, ?_⟩
    by_cases hr : (r1 || r2) = true
    · exact hr
    · rw [if_neg hr] at hb; cases hb

/-- C8 witness: the pass conditions hold on a concrete listing without
"777" and a readable main file at the first candidate path. -/
theorem C8_file_permissions_pass_conditions_witness :
    SecurityTests.pyInStr "777" "drwxr-xr-x 2 appuser appuser 4096 main.py" = false ∧
    (true || false) = true :=
  C8_file_permissions_pass_conditions
    "drwxr-xr-x 2 appuser appuser 4096 main.py" true false (by decide)

/-- C9: the except branch of read_root is unreachable: its try block
always returns the response dict, so read_root always returns it too and
never raises the HTTPException of its own error path. -/
theorem C9_read_root_error_branch_unreachable (v : String) :
    ReadyApp.read_root_try v =
      Except.ok [("message", JVal.str (read_root_message v)),
                 ("python_version", JVal.str v),
                 ("status", JVal.str "healthy")] ∧
    ReadyApp.read_root v =
      Except.ok [("message", JVal.str (read_root_message v)),
                 ("python_version", JVal.str v),
                 ("status", JVal.str "healthy")] :=
  ⟨rfl, rfl⟩

/-- C10: for a fixed interpreter version the endpoints are deterministic
(the routed response of any path is a function of the version alone, so
two invocations agree), and the python_version field of the root body,
the version interpolated into its message, and the python_version field
of the info body are all the same major.minor version string. -/
theorem C10_deterministic_and_version_consistent (major minor : Nat) (path : String) :
    ReadyApp.app_get (version major minor) path
      = ReadyApp.app_get (version major minor) path ∧
    ReadyApp.read_root (version major minor) =
      Except.ok [("message", JVal.str
          ("Hello world! From ReadyAPI running on Uvicorn with Gunicorn. Using Python "
            ++ version major minor)),
        ("python_version", JVal.str (version major minor)),
        ("status", JVal.str "healthy")] ∧
    (ReadyApp.get_info (version major minor)).lookup "python_version"
      = some (JVal.str (version major minor)) :=
  ⟨rfl, rfl, rfl⟩

end MoreClaims
